import Mathlib

/-!
Verification of the stealth-address engine and payment-lifecycle logic of the
shogun-stealth-address plugin, as a shallow embedding in Lean 4.

The embedding mirrors two source files:
  src/stealth.ts       (class Stealth: key derivation, stealth generate/open)
  src/stealthPlugin.ts (class StealthPlugin: payment table, sync, withdrawal)

Elliptic-curve points are modelled in exponent space: a public key is
represented by its discrete logarithm modulo the secp256k1 group order, so
that scalar-by-point multiplication becomes modular multiplication.  The
external cryptographic collaborators (keccak256, the ethers address map, and
the Fluidkey stealth-account-kit routines) are parameters of the model,
bundled in a structure, with the Fluidkey generate/open pair constrained only
by its boundary contract.
-/

set_option maxRecDepth 40000

namespace StealthSpec

/-- The secp256k1 group order, the literal CURVE_ORDER of
Stealth.addPrivateKeys in src/stealth.ts. -/
def CURVE_ORDER : Nat :=
  0xFFFFFFFFFFFFFFFFFFFFFFFFFFFFFFFEBAAEDCE6AF48A03BBFD25E8CD0364141

/-- Modelled from the spec: a public key in exponent space is the private
scalar reduced modulo the group order (the point priv * G is represented by
its discrete log). -/
def pubOf (priv : Nat) : Nat := priv % CURVE_ORDER

/-- Modelled from the spec: ECDH shared secret in exponent space, priv * pub
modulo the group order (scalar multiplication of a point represented by its
discrete log). -/
def ecdh (priv pub : Nat) : Nat := (priv * pub) % CURVE_ORDER

/-- Embedding of Stealth.addPrivateKeys: scalar addition modulo the
secp256k1 group order. -/
def addPrivateKeys (k1 k2 : Nat) : Nat := (k1 + k2) % CURVE_ORDER

/-- Modelled from the spec: the external cryptographic collaborators of
src/stealth.ts, consumed at their boundary.  hashPoint is keccak256 of a
shared-secret point encoding; addressOf maps a private key to the address of
its wallet (ethers); kecStr is keccak256 of a UTF-8 string; encodePub is the
hex encoding of a public key; libGenAddress and libGenPriv are the Fluidkey
stealth-account-kit routines generateStealthAddresses (single recipient) and
generateStealthPrivateKey, constrained by the boundary contract that the
pair is consistent: generating with the ephemeral private key and the
recipient spending public key names the address of the wallet recovered from
the ephemeral public key and the spending private key. -/
structure Model where
  hashPoint : Nat → Nat
  addressOf : Nat → Nat
  kecStr : String → Nat
  encodePub : Nat → String
  libGenAddress : Nat → Nat → Nat
  libGenPriv : Nat → Nat → Nat
  libConsistent : ∀ ephPriv spendPriv,
    libGenAddress ephPriv (pubOf spendPriv) = addressOf (libGenPriv (pubOf ephPriv) spendPriv)

/-- Embedding of the StealthAddressResult record of src/types.ts, at the
exponent-space level. -/
structure StealthAddressResult where
  stealthAddress : Nat
  ephemeralPublicKey : Nat
  recipientViewingPublicKey : Nat
  recipientSpendingPublicKey : Nat
deriving Repr, DecidableEq

/-- Embedding of Stealth.generateStealthAddress (primary Fluidkey path,
ephemeral private key supplied; key normalization is the identity in
exponent space).  The stealth address is the single element the library
returns for the one-recipient list [spendingPublicKey]. -/
def generateStealthAddress (M : Model)
    (viewingPublicKey spendingPublicKey ephemeralPrivateKey : Nat) :
    StealthAddressResult :=
  { stealthAddress := M.libGenAddress ephemeralPrivateKey spendingPublicKey
    ephemeralPublicKey := pubOf ephemeralPrivateKey
    recipientViewingPublicKey := viewingPublicKey
    recipientSpendingPublicKey := spendingPublicKey }

/-- Embedding of Stealth.getPrivateKeyFromPublicKey: keccak256 of the UTF-8
string "stealth_seed_" concatenated with the public key encoding. -/
def getPrivateKeyFromPublicKey (M : Model) (publicKey : Nat) : Nat :=
  M.kecStr ("stealth_seed_" ++ M.encodePub publicKey)

/-- Embedding of Stealth.generateStealthAddressOriginal (the hand-rolled
fallback generation path): shared secret by ECDH of the ephemeral private
key with the viewing public key, hashed; the scalar added to it is the
supplied spending private key when present, otherwise the public-data-derived
scalar of getPrivateKeyFromPublicKey. -/
def generateStealthAddressOriginal (M : Model)
    (viewingPublicKey spendingPublicKey ephemeralPrivateKey : Nat)
    (spendingPrivateKey : Option Nat) : StealthAddressResult :=
  let sharedSecret := ecdh ephemeralPrivateKey viewingPublicKey
  let hashedSharedSecret := M.hashPoint sharedSecret
  let spendingKeyToUse :=
    match spendingPrivateKey with
    | some k => k
    | none => getPrivateKeyFromPublicKey M spendingPublicKey
  let stealthPrivateKeyScalar := addPrivateKeys hashedSharedSecret spendingKeyToUse
  { stealthAddress := M.addressOf stealthPrivateKeyScalar
    ephemeralPublicKey := pubOf ephemeralPrivateKey
    recipientViewingPublicKey := viewingPublicKey
    recipientSpendingPublicKey := spendingPublicKey }

/-- The mismatch error message thrown by both opening paths in
src/stealth.ts. -/
def mismatchMsg : String := "Derived address does not match expected stealth address"

/-- Embedding of Stealth.openStealthAddressOriginal (fallback opening path):
recomputes the stealth private key from the viewing private key and the
ephemeral public key, adds the spending private key, and fails with the
mismatch error when the derived address differs from the expected one. -/
def openStealthAddressOriginal (M : Model)
    (stealthAddress ephemeralPublicKey viewingPrivateKey spendingPrivateKey : Nat) :
    Except String Nat :=
  let sharedSecret := ecdh viewingPrivateKey ephemeralPublicKey
  let hashedSharedSecret := M.hashPoint sharedSecret
  let stealthPrivateKeyScalar := addPrivateKeys hashedSharedSecret spendingPrivateKey
  if M.addressOf stealthPrivateKeyScalar = stealthAddress then
    Except.ok stealthPrivateKeyScalar
  else
    Except.error mismatchMsg

/-- Embedding of Stealth.openStealthAddress: the primary path derives the
stealth private key with the Fluidkey routine and returns its wallet when the
derived address matches; a mismatch (or a library failure) is caught by the
inner catch and control falls to the fallback path, whose own mismatch error
propagates. -/
def openStealthAddress (M : Model)
    (stealthAddress ephemeralPublicKey viewingPrivateKey spendingPrivateKey : Nat) :
    Except String Nat :=
  let stealthPrivateKey := M.libGenPriv ephemeralPublicKey spendingPrivateKey
  if M.addressOf stealthPrivateKey = stealthAddress then
    Except.ok stealthPrivateKey
  else
    openStealthAddressOriginal M stealthAddress ephemeralPublicKey
      viewingPrivateKey spendingPrivateKey

/-- A concrete instance of the collaborator model, used to evaluate the
theorems on closed inputs. -/
def defaultModel : Model where
  hashPoint := id
  addressOf := id
  kecStr := fun s => s.length
  encodePub := fun n => toString n
  libGenAddress := fun ephPriv spendPub => (ephPriv * spendPub) % CURVE_ORDER
  libGenPriv := fun ephPub spendPriv => (spendPriv * ephPub) % CURVE_ORDER
  libConsistent := by
    intro e s
    show (e * (s % CURVE_ORDER)) % CURVE_ORDER = (s * (e % CURVE_ORDER)) % CURVE_ORDER
    rw [Nat.mul_mod_mod, Nat.mul_mod_mod, Nat.mul_comm]

/-- C1: round-trip of generation and opening.  For all matching key pairs and
every ephemeral private key, opening the generated stealth address with the
corresponding private keys returns the wallet whose address equals the
generated stealth address (the primary Fluidkey opening path succeeds by the
consistency of the library pair). -/
theorem generate_open_roundtrip (M : Model)
    (viewingPrivateKey spendingPrivateKey ephemeralPrivateKey : Nat) :
    openStealthAddress M
        (generateStealthAddress M (pubOf viewingPrivateKey) (pubOf spendingPrivateKey)
          ephemeralPrivateKey).stealthAddress
        (generateStealthAddress M (pubOf viewingPrivateKey) (pubOf spendingPrivateKey)
          ephemeralPrivateKey).ephemeralPublicKey
        viewingPrivateKey spendingPrivateKey
      = Except.ok (M.libGenPriv (pubOf ephemeralPrivateKey) spendingPrivateKey) ∧
    M.addressOf (M.libGenPriv (pubOf ephemeralPrivateKey) spendingPrivateKey)
      = (generateStealthAddress M (pubOf viewingPrivateKey) (pubOf spendingPrivateKey)
          ephemeralPrivateKey).stealthAddress := by
  have h := M.libConsistent ephemeralPrivateKey spendingPrivateKey
  constructor
  · simp [openStealthAddress, generateStealthAddress, h.symm]
  · simp [generateStealthAddress, h]

/-- Closed evaluation of the round-trip theorem on the default model and
concrete keys. -/
theorem generate_open_roundtrip_witness :
    openStealthAddress defaultModel
        (generateStealthAddress defaultModel (pubOf 3) (pubOf 5) 7).stealthAddress
        (generateStealthAddress defaultModel (pubOf 3) (pubOf 5) 7).ephemeralPublicKey
        3 5
      = Except.ok (defaultModel.libGenPriv (pubOf 7) 5) ∧
    defaultModel.addressOf (defaultModel.libGenPriv (pubOf 7) 5)
      = (generateStealthAddress defaultModel (pubOf 3) (pubOf 5) 7).stealthAddress :=
  generate_open_roundtrip defaultModel 3 5 7

/-- C2: no silent mismatch on opening.  Every call that returns a wallet
returns one whose address equals the supplied stealth address, and when the
recomputed address differs from the expected one on both the primary and the
(last attempted) fallback derivation path, the call fails with the mismatch
error instead of returning a wallet. -/
theorem open_no_silent_mismatch (M : Model)
    (stealthAddress ephemeralPublicKey viewingPrivateKey spendingPrivateKey : Nat) :
    (∀ w, openStealthAddress M stealthAddress ephemeralPublicKey viewingPrivateKey
        spendingPrivateKey = Except.ok w → M.addressOf w = stealthAddress) ∧
    (M.addressOf (M.libGenPriv ephemeralPublicKey spendingPrivateKey) ≠ stealthAddress →
      M.addressOf (addPrivateKeys (M.hashPoint (ecdh viewingPrivateKey ephemeralPublicKey))
          spendingPrivateKey) ≠ stealthAddress →
      openStealthAddress M stealthAddress ephemeralPublicKey viewingPrivateKey
        spendingPrivateKey = Except.error mismatchMsg) := by
  constructor
  · intro w hw
    by_cases h1 : M.addressOf (M.libGenPriv ephemeralPublicKey spendingPrivateKey)
        = stealthAddress
    · simp [openStealthAddress, h1] at hw
      rw [← hw, h1]
    · simp only [openStealthAddress, openStealthAddressOriginal, if_neg h1] at hw
      by_cases h2 : M.addressOf
          (addPrivateKeys (M.hashPoint (ecdh viewingPrivateKey ephemeralPublicKey))
            spendingPrivateKey) = stealthAddress
      · simp [if_pos h2] at hw
        rw [← hw, h2]
      · simp [if_neg h2] at hw
  · intro h1 h2
    simp [openStealthAddress, openStealthAddressOriginal, if_neg h1, if_neg h2]

/-- Closed evaluation of the no-silent-mismatch theorem: on the default model
with keys (viewing 3, spending 5) and ephemeral public key 2, the expected
address 999 matches neither derivation path, so opening fails with the
mismatch error. -/
theorem open_no_silent_mismatch_witness :
    openStealthAddress defaultModel 999 2 3 5 = Except.error mismatchMsg :=
  (open_no_silent_mismatch defaultModel 999 2 3 5).2 (by decide) (by decide)

/-- C10: in the fallback generation path with no spending private key
supplied, the scalar added to the hashed shared secret is keccak256 of the
string "stealth_seed_" concatenated with the spending public key encoding, so
the result is the closed form below, a function of the two public keys and
the ephemeral private key alone, identical to what the path computes when
handed that public-data-derived scalar explicitly. -/
theorem fallback_generation_public_data_only (M : Model)
    (viewingPublicKey spendingPublicKey ephemeralPrivateKey : Nat) :
    generateStealthAddressOriginal M viewingPublicKey spendingPublicKey
        ephemeralPrivateKey none
      = { stealthAddress := M.addressOf
            (addPrivateKeys (M.hashPoint (ecdh ephemeralPrivateKey viewingPublicKey))
              (M.kecStr ("stealth_seed_" ++ M.encodePub spendingPublicKey)))
          ephemeralPublicKey := pubOf ephemeralPrivateKey
          recipientViewingPublicKey := viewingPublicKey
          recipientSpendingPublicKey := spendingPublicKey } ∧
    generateStealthAddressOriginal M viewingPublicKey spendingPublicKey
        ephemeralPrivateKey none
      = generateStealthAddressOriginal M viewingPublicKey spendingPublicKey
          ephemeralPrivateKey (some (getPrivateKeyFromPublicKey M spendingPublicKey)) :=
  ⟨rfl, rfl⟩

/-! ## String-level key derivation (src/stealth.ts)

The signature-to-keys pipeline operates on hex strings; it is embedded here
at the string level, with keccak256, the Fluidkey generateKeysFromSignature
routine and the ethers private-to-public map as parameters. -/

/-- Test for a leading "0x", on the underlying character list so that closed
instances reduce in the kernel. -/
def starts0x (s : String) : Bool :=
  match s.data with
  | '0' :: 'x' :: _ => true
  | _ => false

/-- Embedding of the "0x"-stripping step used throughout src/stealth.ts
(startsWith "0x" followed by slice(2)). -/
def strip0x (s : String) : String :=
  match s.data with
  | '0' :: 'x' :: rest => String.mk rest
  | _ => s

/-- A hexadecimal character, per the character class of the validation
regexes in src/stealth.ts. -/
def isHexChar (c : Char) : Bool :=
  c.isDigit || (('a' ≤ c && c ≤ 'f') || ('A' ≤ c && c ≤ 'F'))

/-- A nonempty all-hexadecimal string, the test of the validation regexes in
src/stealth.ts. -/
def isHexStr (s : String) : Bool :=
  !s.data.isEmpty && s.data.all isHexChar

/-- Numeric value of a hexadecimal digit (0 on other characters, which the
callers rule out beforehand). -/
def hexDigitVal (c : Char) : Nat :=
  if c.isDigit then c.toNat - 48
  else if 'a' ≤ c && c ≤ 'f' then c.toNat - 97 + 10
  else if 'A' ≤ c && c ≤ 'F' then c.toNat - 65 + 10
  else 0

/-- Embedding of parseInt(s, 16) on an all-hex string. -/
def parseHexNat (s : String) : Nat :=
  s.data.foldl (fun acc c => acc * 16 + hexDigitVal c) 0

/-- Embedding of String.prototype.padEnd. -/
def padEnd (s : String) (n : Nat) (c : Char) : String :=
  s ++ String.mk (List.replicate (n - s.length) c)

/-- Embedding of String.prototype.slice for in-range nonnegative indices. -/
def sliceStr (s : String) (a b : Nat) : String :=
  String.mk ((s.toList.drop a).take (b - a))

/-- Embedding of Number.prototype.toString(16).padStart(2, "0") for byte
values, as applied to the v component. -/
def toHex2 (n : Nat) : String :=
  let hx := String.mk (Nat.toDigits 16 n)
  if hx.length < 2 then "0" ++ hx else hx

/-- Embedding of the FluidkeySignature record of src/types.ts. -/
structure FluidkeySignature where
  r : String
  s : String
  v : Nat
deriving Repr, DecidableEq

/-- Raw result of the external Fluidkey generateKeysFromSignature routine. -/
structure RawKeys where
  viewingPrivateKey : String
  spendingPrivateKey : String
deriving Repr, DecidableEq

/-- Embedding of the KeyPair record of src/types.ts. -/
structure KeyPair where
  privateKey : String
  publicKey : String
deriving Repr, DecidableEq

/-- Embedding of the StealthKeys record of src/types.ts. -/
structure StealthKeys where
  viewingKey : KeyPair
  spendingKey : KeyPair
deriving Repr, DecidableEq

/-- Modelled from the spec: the external collaborators of the string-level
key-derivation pipeline.  kec256 is keccak256 of a UTF-8 string as a
"0x"-prefixed hex string; libKeys is the Fluidkey generateKeysFromSignature
routine; pubFromPriv is the ethers wallet public key of a private key. -/
structure StrCrypto where
  kec256 : String → String
  libKeys : String → RawKeys
  pubFromPriv : String → String

/-- Embedding of the catch block of Stealth.convertStringToFluidkeySignature:
a fallback signature built from the keccak256 hash of the original string,
r from hash characters 2..66, s from 66..130, v = 27. -/
def fallbackSignature (E : StrCrypto) (signature : String) : FluidkeySignature :=
  let fallbackHash := E.kec256 signature
  { r := "0x" ++ sliceStr fallbackHash 2 66
    s := "0x" ++ sliceStr fallbackHash 66 130
    v := 27 }

/-- Embedding of Stealth.convertStringToFluidkeySignature.  Every throw
inside the try block lands in the catch block, i.e. produces the hash-based
fallback signature; on the success path the v component defaults to 27 when
it parses to zero (the JS expression v or-else 27). -/
def convertStringToFluidkeySignature (E : StrCrypto) (signature : String) :
    FluidkeySignature :=
  if signature = "" then fallbackSignature E signature
  else
    let cleanSignature := strip0x signature
    if cleanSignature.length < 128 then fallbackSignature E signature
    else if !isHexStr cleanSignature then fallbackSignature E signature
    else
      let paddedSignature := sliceStr (padEnd cleanSignature 130 '0') 0 130
      let r := sliceStr paddedSignature 0 64
      let s := sliceStr paddedSignature 64 128
      let vHex := sliceStr paddedSignature 128 130
      let v := parseHexNat vHex
      if 255 < v then fallbackSignature E signature
      else { r := "0x" ++ r, s := "0x" ++ s, v := if v = 0 then 27 else v }

/-- Raw output record of Stealth.generateKeysFromSignature. -/
structure RawKeysOut where
  viewingPrivateKey : String
  viewingPublicKey : String
  spendingPrivateKey : String
  spendingPublicKey : String
deriving Repr, DecidableEq

/-- Embedding of Stealth.generateKeysFromSignature: strips "0x" from r and s,
renders v as two hex digits, validates that r and s are hex and that the
reassembled signature has length 132, then calls the Fluidkey routine and
derives the two public keys. -/
def generateKeysFromSignature (E : StrCrypto) (sig : FluidkeySignature) :
    Except String RawKeysOut :=
  let r := strip0x sig.r
  let s := strip0x sig.s
  let v := toHex2 sig.v
  if !(isHexStr r && isHexStr s) then
    Except.error "Invalid signature: r and s must be valid hex strings"
  else
    let finalSignature := "0x" ++ (r ++ s ++ v)
    if finalSignature.length ≠ 132 then
      Except.error "Invalid signature length"
    else
      let result := E.libKeys finalSignature
      Except.ok
        { viewingPrivateKey := result.viewingPrivateKey
          viewingPublicKey := E.pubFromPriv result.viewingPrivateKey
          spendingPrivateKey := result.spendingPrivateKey
          spendingPublicKey := E.pubFromPriv result.spendingPrivateKey }

/-- Embedding of Stealth.deriveWalletFromSeed: the keccak256 hash of
seed ++ "_" ++ purpose ++ "_stealth_deterministic" used directly as the
private key. -/
def deriveWalletFromSeed (E : StrCrypto) (seed purpose : String) : KeyPair :=
  let seedHash := E.kec256 (seed ++ "_" ++ purpose ++ "_stealth_deterministic")
  { privateKey := seedHash, publicKey := E.pubFromPriv seedHash }

/-- Hash-based key derivation used by Stealth.getStealthKeys when no usable
signature is given and by the recursion-stopping fallback of
Stealth.generateStealthKeysFromStringSignature. -/
def hashBasedKeys (E : StrCrypto) (seed : String) : StealthKeys :=
  { viewingKey := deriveWalletFromSeed E seed "viewing"
    spendingKey := deriveWalletFromSeed E seed "spending" }

/-- The signature-derivation attempt shared by both invocations of
Stealth.generateStealthKeysFromStringSignature: convert the string to a
FluidkeySignature and run generateKeysFromSignature on it. -/
def signatureAttempt (E : StrCrypto) (signature : String) :
    Except String RawKeysOut :=
  generateKeysFromSignature E (convertStringToFluidkeySignature E signature)

/-- Packaging of a successful signature attempt as StealthKeys, as done in
Stealth.generateStealthKeysFromStringSignature. -/
def keysOfRaw (raw : RawKeysOut) : StealthKeys :=
  { viewingKey := { privateKey := raw.viewingPrivateKey
                    publicKey := raw.viewingPublicKey }
    spendingKey := { privateKey := raw.spendingPrivateKey
                     publicKey := raw.spendingPublicKey } }

/-- Embedding of Stealth.generateStealthKeysFromStringSignature with
isFallback = true: on an attempt failure it stops the recursion and derives
hash-based keys directly. -/
def generateStealthKeysFromStringSignatureFB (E : StrCrypto) (signature : String) :
    StealthKeys :=
  match signatureAttempt E signature with
  | Except.ok raw => keysOfRaw raw
  | Except.error _ => hashBasedKeys E signature

/-- Embedding of Stealth.generateStealthKeysFromStringSignature (public entry,
isFallback = false): on an attempt failure it retries through
Stealth.getStealthKeys, which re-enters the same method with isFallback = true
for a nonempty signature other than "default_seed" and otherwise derives
hash-based keys from the seed. -/
def generateStealthKeysFromStringSignature (E : StrCrypto) (signature : String) :
    StealthKeys :=
  match signatureAttempt E signature with
  | Except.ok raw => keysOfRaw raw
  | Except.error _ =>
      if signature ≠ "" ∧ signature ≠ "default_seed" then
        generateStealthKeysFromStringSignatureFB E signature
      else
        hashBasedKeys E (if signature = "" then "default_seed" else signature)

/-- A concrete instance of the string-level collaborators, used to evaluate
the theorems on closed inputs: the keccak256 stand-in returns, like the real
ethers.keccak256, a "0x"-prefixed 64-hex-character string (66 characters in
total). -/
def strCrypto0 : StrCrypto where
  kec256 := fun _ => "0x" ++ String.mk (List.replicate 64 'a')
  libKeys := fun _ => { viewingPrivateKey := "0x01", spendingPrivateKey := "0x02" }
  pubFromPriv := fun p => "pub" ++ p

/-- On a nonempty input whose stripped form is short or not hexadecimal, the
conversion takes the catch branch and returns the hash-based fallback
signature. -/
theorem convert_fallback_of_bad (E : StrCrypto) (signature : String)
    (hne : signature ≠ "")
    (hbad : (strip0x signature).length < 128 ∨ isHexStr (strip0x signature) = false) :
    convertStringToFluidkeySignature E signature = fallbackSignature E signature := by
  unfold convertStringToFluidkeySignature
  rcases hbad with hlen | hhex
  · simp [if_neg hne, if_pos hlen]
  · by_cases hlen : (strip0x signature).length < 128
    · simp [if_neg hne, if_pos hlen]
    · simp [if_neg hne, if_neg hlen, hhex]

/-- A signature whose stripped s component is empty is rejected by
generateKeysFromSignature with the hex-validation error. -/
theorem generateKeysFromSignature_error_of_s_empty (E : StrCrypto)
    (sig : FluidkeySignature) (h : strip0x sig.s = "") :
    generateKeysFromSignature E sig
      = Except.error "Invalid signature: r and s must be valid hex strings" := by
  have hsf : isHexStr (strip0x sig.s) = false := by rw [h]; rfl
  simp [generateKeysFromSignature, hsf]

/-- When the keccak256 collaborator returns a 66-character hash (its actual
output shape, "0x" plus 64 hex digits), the fallback signature built from it
has an empty s component: slice(66, 130) runs past the end of the hash. -/
theorem fallbackSignature_s_empty (E : StrCrypto) (signature : String)
    (h66 : (E.kec256 signature).length = 66) :
    strip0x (fallbackSignature E signature).s = "" := by
  show strip0x ("0x" ++ sliceStr (E.kec256 signature) 66 130) = ""
  have hdrop : sliceStr (E.kec256 signature) 66 130 = "" := by
    unfold sliceStr
    have h1 : (E.kec256 signature).toList.drop 66 = [] :=
      List.drop_eq_nil_of_le (le_of_eq h66)
    rw [h1]
    rfl
  rw [hdrop]
  decide

/-- C3 counterexample: on the input "zz", which is not valid hexadecimal
(and shorter than 128 characters), the operation does not fail with a
ValidationError: the conversion produces the hash-based fallback signature,
whose s component is just "0x" because the keccak256 hash has only 64 hex
characters, the Fluidkey derivation attempt on that signature is rejected,
and the operation still returns keys — those of the deterministic
hash-based seed path. -/
theorem signature_conversion_no_validation_error :
    convertStringToFluidkeySignature strCrypto0 "zz"
        = fallbackSignature strCrypto0 "zz" ∧
    (fallbackSignature strCrypto0 "zz").s = "0x" ∧
    signatureAttempt strCrypto0 "zz"
        = Except.error "Invalid signature: r and s must be valid hex strings" ∧
    generateStealthKeysFromStringSignature strCrypto0 "zz"
        = hashBasedKeys strCrypto0 "zz" := by
  refine ⟨by decide, by decide, ?_, by decide⟩
  unfold signatureAttempt
  rw [convert_fallback_of_bad strCrypto0 "zz" (by decide) (Or.inr (by decide))]
  exact generateKeysFromSignature_error_of_s_empty strCrypto0 _
    (fallbackSignature_s_empty strCrypto0 "zz" (by decide))

/-- C3 (amended): for every nonempty input that is not valid hexadecimal or
whose stripped form is shorter than 128 characters, the conversion does not
fail: it falls back to the keccak256-derived signature, whose recovery id is
27; for well-formed inputs whose v byte parses to zero, the conversion
proceeds with the canonical recovery id 27; and since a keccak256 hash is 66
characters, the fallback signature's s component is empty, so the Fluidkey
derivation rejects it and the operation returns the keys of the
deterministic hash-based seed path instead of an error. -/
theorem signature_conversion_fallback_and_v (E : StrCrypto) (signature : String) :
    (signature ≠ "" →
      (strip0x signature).length < 128 ∨ isHexStr (strip0x signature) = false →
      convertStringToFluidkeySignature E signature = fallbackSignature E signature) ∧
    (fallbackSignature E signature).v = 27 ∧
    (¬ (strip0x signature).length < 128 →
      isHexStr (strip0x signature) = true →
      parseHexNat (sliceStr (sliceStr (padEnd (strip0x signature) 130 '0') 0 130) 128 130)
        = 0 →
      (convertStringToFluidkeySignature E signature).v = 27) ∧
    ((E.kec256 signature).length = 66 → signature ≠ "" →
      (strip0x signature).length < 128 ∨ isHexStr (strip0x signature) = false →
      generateStealthKeysFromStringSignature E signature
        = hashBasedKeys E signature) := by
  refine ⟨convert_fallback_of_bad E signature, rfl, ?_, ?_⟩
  · intro hlen hhex hv
    have hne : signature ≠ "" := by
      intro h
      apply hlen
      rw [h]
      decide
    unfold convertStringToFluidkeySignature
    simp [if_neg hne, if_neg hlen, hhex, hv]
  · intro h66 hne hbad
    have hatt : signatureAttempt E signature
        = Except.error "Invalid signature: r and s must be valid hex strings" := by
      unfold signatureAttempt
      rw [convert_fallback_of_bad E signature hne hbad]
      exact generateKeysFromSignature_error_of_s_empty E _
        (fallbackSignature_s_empty E signature h66)
    unfold generateStealthKeysFromStringSignature
    rw [hatt]
    dsimp only
    by_cases hd : signature = "default_seed"
    · rw [if_neg (fun hcon => hcon.2 hd), if_neg hne]
    · rw [if_pos ⟨hne, hd⟩]
      unfold generateStealthKeysFromStringSignatureFB
      rw [hatt]

/-- Closed evaluation of the amended C3 theorem: the non-hex input "zz"
takes the fallback branch and ends in the hash-based seed keys, and a
130-hex-character input ending in "00" (v parses to zero) is converted with
recovery id 27. -/
theorem signature_conversion_fallback_and_v_witness :
    convertStringToFluidkeySignature strCrypto0 "zz"
        = fallbackSignature strCrypto0 "zz" ∧
    (convertStringToFluidkeySignature strCrypto0
        (String.mk (List.replicate 128 '1') ++ "00")).v = 27 ∧
    generateStealthKeysFromStringSignature strCrypto0 "zz"
        = hashBasedKeys strCrypto0 "zz" := by
  refine ⟨?_, ?_, ?_⟩
  · exact (signature_conversion_fallback_and_v strCrypto0 "zz").1 (by decide)
      (Or.inr (by decide))
  · exact (signature_conversion_fallback_and_v strCrypto0
        (String.mk (List.replicate 128 '1') ++ "00")).2.2.1 (by decide) (by decide)
      (by decide)
  · exact (signature_conversion_fallback_and_v strCrypto0 "zz").2.2.2 (by decide)
      (by decide) (Or.inr (by decide))

/-- The scenario signature of the spec: "0x", 64 hex 1 digits, 64 hex 2
digits, then "1b". -/
def sigC4 : String :=
  "0x" ++ String.mk (List.replicate 64 '1') ++ String.mk (List.replicate 64 '2') ++ "1b"

/-- C4: determinism of key derivation from a signature.  For the scenario
signature, repeated invocations agree; the conversion parses it into r, s and
v = 27 independently of the keccak collaborator (no fallback is taken); and
the derived keys are exactly the deterministic image of the Fluidkey routine
applied to the reassembled signature, so the result is byte-identical across
calls with the same input. -/
theorem signature_derivation_deterministic (E : StrCrypto) :
    generateStealthKeysFromStringSignature E sigC4
        = generateStealthKeysFromStringSignature E sigC4 ∧
    convertStringToFluidkeySignature E sigC4
        = { r := "0x" ++ String.mk (List.replicate 64 '1')
            s := "0x" ++ String.mk (List.replicate 64 '2')
            v := 27 } ∧
    generateStealthKeysFromStringSignature E sigC4
        = keysOfRaw
            { viewingPrivateKey := (E.libKeys sigC4).viewingPrivateKey
              viewingPublicKey := E.pubFromPriv (E.libKeys sigC4).viewingPrivateKey
              spendingPrivateKey := (E.libKeys sigC4).spendingPrivateKey
              spendingPublicKey := E.pubFromPriv (E.libKeys sigC4).spendingPrivateKey } := by
  refine ⟨rfl, rfl, ?_⟩
  have hconv : convertStringToFluidkeySignature E sigC4
      = { r := "0x" ++ String.mk (List.replicate 64 '1')
          s := "0x" ++ String.mk (List.replicate 64 '2')
          v := 27 } := rfl
  have hhex : (isHexStr (strip0x ("0x" ++ String.mk (List.replicate 64 '1'))) &&
      isHexStr (strip0x ("0x" ++ String.mk (List.replicate 64 '2')))) = true := by decide
  have hlen : ("0x" ++ (strip0x ("0x" ++ String.mk (List.replicate 64 '1')) ++
      strip0x ("0x" ++ String.mk (List.replicate 64 '2')) ++ toHex2 27)).length = 132 := by
    decide
  have hstr : ("0x" ++ (strip0x ("0x" ++ String.mk (List.replicate 64 '1')) ++
      strip0x ("0x" ++ String.mk (List.replicate 64 '2')) ++ toHex2 27)) = sigC4 := by
    decide
  have hatt : signatureAttempt E sigC4
      = Except.ok
          { viewingPrivateKey := (E.libKeys sigC4).viewingPrivateKey
            viewingPublicKey := E.pubFromPriv (E.libKeys sigC4).viewingPrivateKey
            spendingPrivateKey := (E.libKeys sigC4).spendingPrivateKey
            spendingPublicKey := E.pubFromPriv (E.libKeys sigC4).spendingPrivateKey } := by
    unfold signatureAttempt
    rw [hconv]
    simp only [generateKeysFromSignature]
    rw [hhex]
    simp only [Bool.not_true, Bool.false_eq_true, if_false]
    rw [hlen, hstr]
    simp
  unfold generateStealthKeysFromStringSignature
  rw [hatt]

/-- Embedding of Stealth.normalizePublicKey.  The compress parameter models
ethers SigningKey.computePublicKey with the compressed flag, which throws
(None) on strings that are not valid uncompressed points; the surrounding
try/catch then returns the original input, so the function never throws. -/
def normalizePublicKey (compress : String → Option String) (publicKey : String) :
    String :=
  let normalizedKey := strip0x publicKey
  if normalizedKey.length = 130 then
    match compress ("0x" ++ normalizedKey) with
    | some c => c
    | none => publicKey
  else if normalizedKey.length = 66 then "0x" ++ normalizedKey
  else if starts0x normalizedKey then normalizedKey
  else "0x" ++ normalizedKey

/-- C5 counterexample: on the 3-character input "abc" (an unrecognized
length), normalizePublicKey returns "0xabc", not the input unchanged. -/
theorem normalizePublicKey_not_unchanged :
    normalizePublicKey (fun _ => none) "abc" = "0xabc" ∧ "0xabc" ≠ "abc" := by
  refine ⟨by decide, by decide⟩

/-- C5 (amended): normalizePublicKey never throws (it is total by
construction), returns the compressed encoding of a 130-hex-character input
when the point compresses — and the input unchanged when compression throws —
returns 66-character inputs in "0x"-prefixed form, and on every other length
returns the stripped key with a "0x" prefix (which equals the input exactly
when the input already carried a single "0x" prefix). -/
theorem normalizePublicKey_cases (compress : String → Option String)
    (publicKey : String) :
    ((strip0x publicKey).length = 130 → ∀ c, compress ("0x" ++ strip0x publicKey) = some c →
      normalizePublicKey compress publicKey = c) ∧
    ((strip0x publicKey).length = 130 → compress ("0x" ++ strip0x publicKey) = none →
      normalizePublicKey compress publicKey = publicKey) ∧
    ((strip0x publicKey).length = 66 →
      normalizePublicKey compress publicKey = "0x" ++ strip0x publicKey) ∧
    ((strip0x publicKey).length ≠ 130 → (strip0x publicKey).length ≠ 66 →
      normalizePublicKey compress publicKey =
        if starts0x (strip0x publicKey) then strip0x publicKey
        else "0x" ++ strip0x publicKey) := by
  refine ⟨?_, ?_, ?_, ?_⟩
  · intro h130 c hc
    unfold normalizePublicKey
    rw [if_pos h130, hc]
  · intro h130 hc
    unfold normalizePublicKey
    rw [if_pos h130, hc]
  · intro h66
    unfold normalizePublicKey
    rw [if_neg (by rw [h66]; decide), if_pos h66]
  · intro h130 h66
    unfold normalizePublicKey
    rw [if_neg h130, if_neg h66]

/-- Closed evaluation of the amended C5 theorem on a 66-character compressed
key and on a 130-character input whose compression succeeds. -/
theorem normalizePublicKey_cases_witness :
    normalizePublicKey (fun _ => some "cpk") (String.mk (List.replicate 66 '3'))
        = "0x" ++ strip0x (String.mk (List.replicate 66 '3')) ∧
    normalizePublicKey (fun _ => some "cpk") (String.mk (List.replicate 130 '4'))
        = "cpk" := by
  constructor
  · exact (normalizePublicKey_cases (fun _ => some "cpk")
      (String.mk (List.replicate 66 '3'))).2.2.1 (by decide)
  · exact (normalizePublicKey_cases (fun _ => some "cpk")
      (String.mk (List.replicate 130 '4'))).1 (by decide) "cpk" rfl

/-! ## Payment table and notification sync (src/stealthPlugin.ts)

The in-memory payment table (a JS Map keyed by the composite id
stealthAddress_timestamp) is embedded as an association list to which
Map.set appends an entry for a fresh key; the StealthPlugin methods only
ever insert behind a duplicate check, so keys stay unique. -/

/-- Embedding of the StealthPaymentNotification record of src/types.ts
(fields consumed by the payment-table methods). -/
structure StealthPaymentNotification where
  stealthAddress : String
  amount : String
  ephemeralPublicKey : String
  sender : String
  message : String
  timestamp : Nat
  token : String
deriving Repr, DecidableEq

/-- A payment table entry: the notification together with the status field
added on ingestion. -/
structure PaymentRecord where
  payment : StealthPaymentNotification
  status : String
deriving Repr, DecidableEq

/-- The in-memory payment table of StealthPlugin (this.paymentState). -/
abbrev PaymentState := List (String × PaymentRecord)

/-- Embedding of StealthPlugin.getPaymentId: the composite key
stealthAddress_timestamp. -/
def getPaymentId (p : StealthPaymentNotification) : String :=
  p.stealthAddress ++ "_" ++ toString p.timestamp

/-- Membership test of the payment table (Map.has). -/
def stateHas (st : PaymentState) (k : String) : Bool :=
  st.any (fun e => e.fst == k)

/-- Embedding of StealthPlugin.isPaymentDuplicate. -/
def isPaymentDuplicate (st : PaymentState) (p : StealthPaymentNotification) : Bool :=
  stateHas st (getPaymentId p)

/-- Number of table entries stored under a given key. -/
def countKey (st : PaymentState) (k : String) : Nat :=
  (st.filter (fun e => e.fst == k)).length

/-- Embedding of StealthPlugin.addPaymentToState: a duplicate (an entry
already present under the composite key) is ignored; otherwise the
notification is inserted with status pending.  Event emission, observer
callbacks and the fire-and-forget remote persistence do not touch the
table. -/
def addPaymentToState (st : PaymentState) (p : StealthPaymentNotification) :
    PaymentState :=
  if isPaymentDuplicate st p then st
  else st ++ [(getPaymentId p, { payment := p, status := "pending" })]

/-- The key of the inserted entry is present after addPaymentToState. -/
theorem stateHas_addPaymentToState (st : PaymentState)
    (p : StealthPaymentNotification) :
    stateHas (addPaymentToState st p) (getPaymentId p) = true := by
  unfold addPaymentToState
  by_cases h : isPaymentDuplicate st p
  · rw [if_pos h]
    exact h
  · rw [if_neg h]
    unfold stateHas
    simp [List.any_append]

/-- addPaymentToState never removes a key. -/
theorem stateHas_addPaymentToState_mono (st : PaymentState)
    (p : StealthPaymentNotification) (k : String) (h : stateHas st k = true) :
    stateHas (addPaymentToState st p) k = true := by
  unfold addPaymentToState
  by_cases hd : isPaymentDuplicate st p
  · rwa [if_pos hd]
  · rw [if_neg hd]
    unfold stateHas at h ⊢
    simp [List.any_append]
    left
    simpa using h

/-- A duplicate ingestion returns the table unchanged. -/
theorem addPaymentToState_of_dup (st : PaymentState)
    (p : StealthPaymentNotification) (h : isPaymentDuplicate st p = true) :
    addPaymentToState st p = st := by
  unfold addPaymentToState
  rw [if_pos h]

/-- A table with no entry under a key does not report the key present. -/
theorem stateHas_false_of_countKey_zero (st : PaymentState) (k : String)
    (h : countKey st k = 0) : stateHas st k = false := by
  unfold countKey at h
  rw [List.length_eq_zero, List.filter_eq_nil_iff] at h
  unfold stateHas
  rw [List.any_eq_false]
  intro e he
  simpa using h e he

/-- C6: ingestion idempotence and no-overwrite.  If the composite key is
already present the table is returned unchanged (the existing record is
never overwritten and every existing entry survives); ingesting the same
notification twice equals ingesting it once; and from a table without the
key, two ingestions leave exactly one record under it. -/
theorem ingest_idempotent_no_overwrite (st : PaymentState)
    (p : StealthPaymentNotification) :
    (isPaymentDuplicate st p = true → addPaymentToState st p = st) ∧
    addPaymentToState (addPaymentToState st p) p = addPaymentToState st p ∧
    (∀ k r, (k, r) ∈ st → (k, r) ∈ addPaymentToState st p) ∧
    (countKey st (getPaymentId p) = 0 →
      countKey (addPaymentToState (addPaymentToState st p) p) (getPaymentId p) = 1) := by
  refine ⟨addPaymentToState_of_dup st p, ?_, ?_, ?_⟩
  · exact addPaymentToState_of_dup _ p (stateHas_addPaymentToState st p)
  · intro k r hmem
    unfold addPaymentToState
    by_cases hd : isPaymentDuplicate st p
    · rwa [if_pos hd]
    · rw [if_neg hd]
      exact List.mem_append_left _ hmem
  · intro h0
    have hnotdup : isPaymentDuplicate st p = false :=
      stateHas_false_of_countKey_zero st (getPaymentId p) h0
    have hone : addPaymentToState st p
        = st ++ [(getPaymentId p, { payment := p, status := "pending" })] := by
      unfold addPaymentToState
      rw [if_neg (by rw [hnotdup]; exact Bool.false_ne_true)]
    rw [addPaymentToState_of_dup _ p (stateHas_addPaymentToState st p), hone]
    have hfil : st.filter (fun e => e.fst == getPaymentId p) = [] :=
      List.length_eq_zero.mp h0
    unfold countKey
    rw [List.filter_append, hfil]
    simp

/-- The ETH token placeholder constant of src/contracts.ts. -/
def ETH_TOKEN_PLACEHOLDER : String := "0xEeeeeEeeeEeEeeEeEeEeeEEEeeeeEeeeeeeeEEeE"

/-- An item read back from the replicated store under
shogun/stealth_payments/userPub; string fields model JS truthiness by
emptiness, and hasMeta models the presence of the store-internal metadata
field that the filter excludes. -/
structure RemoteItem where
  amount : String
  ephemeralPublicKey : String
  sender : String
  message : String
  timestamp : Nat
  token : String
  hasMeta : Bool
deriving Repr, DecidableEq

/-- The remote notification set: store keys paired with their items. -/
abbrev RemoteData := List (String × RemoteItem)

/-- Test whether a string starts with a given character, on the underlying
list so that closed instances reduce in the kernel. -/
def startsWithChar (s : String) (c : Char) : Bool :=
  match s.data with
  | a :: _ => a == c
  | [] => false

/-- Modelled from the spec: the JS test !isNaN(Number(key)) on the
placeholder keys the filter excludes, which in this store are timestamp
strings; modelled as all-digit strings (the empty string is also numeric
under Number). -/
def jsNumericKey (k : String) : Bool :=
  k.data.all Char.isDigit

/-- Embedding of the key filter of
StealthPlugin.syncNotificationsWithState: numeric keys that are not
Ethereum addresses and store-metadata keys (leading underscore, hash mark
or greater-than sign) are dropped; everything else is kept. -/
def validSyncKey (k : String) : Bool :=
  if jsNumericKey k && !starts0x k then false
  else if startsWithChar k '_' || (startsWithChar k '#' || startsWithChar k '>') then false
  else true

/-- Embedding of the item filter of
StealthPlugin.syncNotificationsWithState: the item must carry an amount, an
ephemeral public key and a sender, and must not be store metadata. -/
def validSyncItem (i : RemoteItem) : Bool :=
  i.amount != "" && (i.ephemeralPublicKey != "" && (i.sender != "" && !i.hasMeta))

/-- Embedding of the notification constructed from a surviving store entry:
the stealth address is the store key; absent message, timestamp and token
fields default to the empty string, the current time and the ETH
placeholder. -/
def notifOfEntry (now : Nat) (e : String × RemoteItem) :
    StealthPaymentNotification :=
  { stealthAddress := e.fst
    amount := e.snd.amount
    ephemeralPublicKey := e.snd.ephemeralPublicKey
    sender := e.snd.sender
    message := e.snd.message
    timestamp := if e.snd.timestamp = 0 then now else e.snd.timestamp
    token := if e.snd.token = "" then ETH_TOKEN_PLACEHOLDER else e.snd.token }

/-- The valid notifications recovered from the remote data, after both
filters. -/
def validNotifications (now : Nat) (remote : RemoteData) :
    List StealthPaymentNotification :=
  ((remote.filter (fun e => validSyncKey e.fst)).filter
      (fun e => validSyncItem e.snd)).map (notifOfEntry now)

/-- The sync-relevant state of StealthPlugin: the payment table and the
timestamp of the last definitive clear. -/
structure SyncState where
  paymentState : PaymentState
  lastClearTimestamp : Nat
deriving Repr, DecidableEq

/-- Embedding of StealthPlugin.clearProcessedPayments: wipes the table and
stamps the clear time (the remote wipe does not touch this state). -/
def clearProcessedPayments (now : Nat) (_st : SyncState) : SyncState :=
  { paymentState := [], lastClearTimestamp := now }

/-- One recovery step of StealthPlugin.syncNotificationsWithState: a
notification not already in the table is ingested. -/
def recoverStep (acc : PaymentState) (n : StealthPaymentNotification) :
    PaymentState :=
  if stateHas acc (getPaymentId n) then acc else addPaymentToState acc n

/-- Embedding of StealthPlugin.syncNotificationsWithState (authenticated
user): a no-op within 30 seconds of the last definitive clear, otherwise
every valid remote notification missing from the table is ingested. -/
def syncNotificationsWithState (now : Nat) (remote : RemoteData)
    (st : SyncState) : SyncState :=
  if now - st.lastClearTimestamp < 30000 then st
  else
    { st with paymentState :=
        (validNotifications now remote).foldl recoverStep st.paymentState }

/-- Embedding of StealthPlugin.forceSyncNotifications: with force = true the
clear timestamp is reset to zero before syncing. -/
def forceSyncNotifications (force : Bool) (now : Nat) (remote : RemoteData)
    (st : SyncState) : SyncState :=
  syncNotificationsWithState now remote
    (if force then { st with lastClearTimestamp := 0 } else st)

/-- One recovery step keeps every key already present. -/
theorem stateHas_recoverStep (acc : PaymentState)
    (n : StealthPaymentNotification) (k : String) (h : stateHas acc k = true) :
    stateHas (recoverStep acc n) k = true := by
  unfold recoverStep
  by_cases hd : stateHas acc (getPaymentId n)
  · rwa [if_pos hd]
  · rw [if_neg hd]
    exact stateHas_addPaymentToState_mono acc n k h

/-- A recovery step makes its own notification key present. -/
theorem stateHas_recoverStep_self (acc : PaymentState)
    (n : StealthPaymentNotification) :
    stateHas (recoverStep acc n) (getPaymentId n) = true := by
  unfold recoverStep
  by_cases hd : stateHas acc (getPaymentId n)
  · rwa [if_pos hd]
  · rw [if_neg hd]
    exact stateHas_addPaymentToState acc n

/-- Folding the recovery step keeps every key already present. -/
theorem stateHas_foldl_mono (l : List StealthPaymentNotification) :
    ∀ (acc : PaymentState) (k : String), stateHas acc k = true →
      stateHas (l.foldl recoverStep acc) k = true := by
  induction l with
  | nil => intro acc k h; exact h
  | cons m t ih =>
      intro acc k h
      rw [List.foldl_cons]
      exact ih (recoverStep acc m) k (stateHas_recoverStep acc m k h)

/-- After folding the recovery step over a notification list, every
notification of the list has its key in the table. -/
theorem stateHas_foldl_recoverStep (l : List StealthPaymentNotification) :
    ∀ (acc : PaymentState) (n : StealthPaymentNotification), n ∈ l →
      stateHas (l.foldl recoverStep acc) (getPaymentId n) = true := by
  induction l with
  | nil => intro acc n hn; exact absurd hn (List.not_mem_nil n)
  | cons m t ih =>
      intro acc n hn
      rw [List.foldl_cons]
      rcases List.mem_cons.mp hn with he | ht
      · subst he
        exact stateHas_foldl_mono t (recoverStep acc n) (getPaymentId n)
          (stateHas_recoverStep_self acc n)
      · exact ih (recoverStep acc m) n ht

/-- C7: clear cooldown.  Reconciling within 30 seconds of a definitive
clear is a no-op on the cleared state (zero records recovered), while
forceSync with ignoreCooldown = true resets the cooldown so that a
following reconcile (at any time at least 30 seconds past epoch) recovers
every valid record still present in the remote store. -/
theorem clear_cooldown_sync (clearTime now : Nat) (remote : RemoteData)
    (st : SyncState) :
    (now - clearTime < 30000 →
      syncNotificationsWithState now remote (clearProcessedPayments clearTime st)
        = clearProcessedPayments clearTime st) ∧
    (30000 ≤ now →
      ∀ n ∈ validNotifications now remote,
        stateHas
          (forceSyncNotifications true now remote st).paymentState
          (getPaymentId n) = true) := by
  constructor
  · intro hcool
    unfold syncNotificationsWithState clearProcessedPayments
    rw [if_pos hcool]
  · intro hpast n hn
    unfold forceSyncNotifications syncNotificationsWithState
    rw [if_pos rfl]
    have hnc : ¬ now - 0 < 30000 := by omega
    rw [if_neg hnc]
    exact stateHas_foldl_recoverStep (validNotifications now remote)
      st.paymentState n hn

/-- Closed evaluation of the C7 theorem: a reconcile 10 seconds after a
clear recovers nothing, and a forced sync at time 40000 recovers the one
valid remote record. -/
theorem clear_cooldown_sync_witness :
    syncNotificationsWithState 20000
        [("0xdead",
          { amount := "5", ephemeralPublicKey := "0xe", sender := "0xs"
            message := "", timestamp := 4, token := "", hasMeta := false })]
        (clearProcessedPayments 10000
          { paymentState := [], lastClearTimestamp := 0 })
      = clearProcessedPayments 10000 { paymentState := [], lastClearTimestamp := 0 } ∧
    stateHas
        (forceSyncNotifications true 40000
          [("0xdead",
            { amount := "5", ephemeralPublicKey := "0xe", sender := "0xs"
              message := "", timestamp := 4, token := "", hasMeta := false })]
          { paymentState := [], lastClearTimestamp := 35000 }).paymentState
        (getPaymentId (notifOfEntry 40000
          ("0xdead",
            { amount := "5", ephemeralPublicKey := "0xe", sender := "0xs"
              message := "", timestamp := 4, token := "", hasMeta := false })))
      = true := by
  constructor
  · exact (clear_cooldown_sync 10000 20000 _ _).1 (by decide)
  · have hval : validNotifications 40000
        [("0xdead",
          { amount := "5", ephemeralPublicKey := "0xe", sender := "0xs"
            message := "", timestamp := 4, token := "", hasMeta := false })]
        = [notifOfEntry 40000
            ("0xdead",
              { amount := "5", ephemeralPublicKey := "0xe", sender := "0xs"
                message := "", timestamp := 4, token := "", hasMeta := false })] := by
      decide
    exact (clear_cooldown_sync 35000 40000 _ _).2 (by decide) _
      (by rw [hval]; exact List.mem_singleton_self _)

/-- Closed evaluation of the C6 theorem: ingesting a concrete notification
twice into the empty table leaves exactly one record under its key. -/
theorem ingest_idempotent_no_overwrite_witness :
    countKey
        (addPaymentToState
          (addPaymentToState []
            { stealthAddress := "0xabc", amount := "1", ephemeralPublicKey := "0xeph"
              sender := "0xse", message := "", timestamp := 7, token := "t" })
          { stealthAddress := "0xabc", amount := "1", ephemeralPublicKey := "0xeph"
            sender := "0xse", message := "", timestamp := 7, token := "t" })
        (getPaymentId
          { stealthAddress := "0xabc", amount := "1", ephemeralPublicKey := "0xeph"
            sender := "0xse", message := "", timestamp := 7, token := "t" }) = 1 :=
  (ingest_idempotent_no_overwrite []
    { stealthAddress := "0xabc", amount := "1", ephemeralPublicKey := "0xeph"
      sender := "0xse", message := "", timestamp := 7, token := "t" }).2.2.2 (by decide)

/-! ## Withdrawal executor (src/stealthPlugin.ts)

The chain interactions of one withdrawal attempt (gas data, estimation,
transaction submission) are abstracted into an attempt oracle indexed by the
retry count; the control flow of the retry loop and the ladder is embedded
exactly. -/

/-- Outcome of one transaction attempt, as seen by the retry loop. -/
inductive AttemptResult where
  | success (txHash : String)
  | failure (msg : String)
deriving Repr, DecidableEq

/-- List prefix test used by the substring check. -/
def charsStartWith : List Char → List Char → Bool
  | _, [] => true
  | [], _ :: _ => false
  | a :: as, b :: bs => a == b && charsStartWith as bs

/-- List infix test used by the substring check. -/
def charsContain (hay needle : List Char) : Bool :=
  match hay with
  | [] => needle.isEmpty
  | _ :: t => charsStartWith hay needle || charsContain t needle

/-- Embedding of JS String.prototype.includes. -/
def msgIncludes (hay needle : String) : Bool :=
  charsContain hay.data needle.data

/-- The error-message test of the retry loop: only failures whose message
contains "insufficient funds" are retried. -/
def retriableFailure : AttemptResult → Bool
  | AttemptResult.success _ => false
  | AttemptResult.failure msg => msgIncludes msg "insufficient funds"

/-- The terminal error message after exhausting all retries. -/
def exhaustedMsg : String := "Failed to withdraw after 20 attempts"

/-- Embedding of the retry loop of
StealthPlugin.withdrawStealthPaymentEnhanced: at most fuel further attempts,
a success returns the transaction hash, a failure whose message contains
"insufficient funds" is retried, any other failure propagates
immediately. -/
def withdrawLoop (attempt : Nat → AttemptResult) (retryCount fuel : Nat) :
    Except String String :=
  match fuel with
  | 0 => Except.error exhaustedMsg
  | fuel' + 1 =>
      match attempt retryCount with
      | AttemptResult.success tx => Except.ok tx
      | AttemptResult.failure msg =>
          if msgIncludes msg "insufficient funds" then
            withdrawLoop attempt (retryCount + 1) fuel'
          else Except.error msg

/-- Embedding of StealthPlugin.withdrawStealthPaymentEnhanced after the
stealth wallet is opened: the loop runs with maxRetries = 20 starting at
retry count 0. -/
def withdrawStealthPaymentEnhanced (attempt : Nat → AttemptResult) :
    Except String String :=
  withdrawLoop attempt 0 20

/-- Embedding of the layer-2 safety margin of the enhanced withdrawal: on
chain ids 10 (Optimism) and 8453 (Base) the margin is
gasCost * min(retryCount, 20) / 100 wei, zero elsewhere. -/
def l2Margin (gasCost retryCount chainId : Nat) : Nat :=
  if chainId = 10 ∨ chainId = 8453 then gasCost * min retryCount 20 / 100
  else 0

/-- Embedding of the value transferred on one attempt of the enhanced
withdrawal: the balance minus the gas cost, further reduced by the layer-2
margin (an Int since the BigInt subtraction can go negative, which the code
then rejects). -/
def adjustedValue (balance gasCost retryCount chainId : Nat) : Int :=
  (balance : Int) - gasCost - l2Margin gasCost retryCount chainId

/-- The retry loop consults the oracle only at indices retryCount up to
retryCount + fuel. -/
theorem withdrawLoop_congr (fuel : Nat) :
    ∀ (retryCount : Nat) (a1 a2 : Nat → AttemptResult),
      (∀ i, retryCount ≤ i → i < retryCount + fuel → a1 i = a2 i) →
      withdrawLoop a1 retryCount fuel = withdrawLoop a2 retryCount fuel := by
  induction fuel with
  | zero => intro rc a1 a2 _; rfl
  | succ f ih =>
      intro rc a1 a2 hag
      unfold withdrawLoop
      rw [hag rc (Nat.le_refl rc) (by omega)]
      cases a2 rc with
      | success tx => rfl
      | failure msg =>
          dsimp only
          by_cases hm : msgIncludes msg "insufficient funds"
          · rw [if_pos hm, if_pos hm]
            exact ih (rc + 1) a1 a2 (fun i h1 h2 => hag i (by omega) (by omega))
          · rw [if_neg hm, if_neg hm]

/-- If every attempt in the window fails retriably, the loop exhausts its
fuel and reports the terminal error. -/
theorem withdrawLoop_exhausts (fuel : Nat) :
    ∀ (retryCount : Nat) (a : Nat → AttemptResult),
      (∀ i, retryCount ≤ i → i < retryCount + fuel → retriableFailure (a i) = true) →
      withdrawLoop a retryCount fuel = Except.error exhaustedMsg := by
  induction fuel with
  | zero => intro rc a _; rfl
  | succ f ih =>
      intro rc a hall
      unfold withdrawLoop
      have h0 := hall rc (Nat.le_refl rc) (by omega)
      cases ha : a rc with
      | success tx => rw [ha] at h0; exact absurd h0 (by simp [retriableFailure])
      | failure msg =>
          rw [ha] at h0
          dsimp only
          rw [if_pos (show msgIncludes msg "insufficient funds" = true from h0)]
          exact ih (rc + 1) a (fun i h1 h2 => hall i (by omega) (by omega))

/-- A non-retriable failure, reached after retriable ones, aborts the loop
with exactly that error. -/
theorem withdrawLoop_aborts (fuel : Nat) :
    ∀ (retryCount k : Nat) (a : Nat → AttemptResult) (msg : String),
      retryCount ≤ k → k < retryCount + fuel →
      (∀ i, retryCount ≤ i → i < k → retriableFailure (a i) = true) →
      a k = AttemptResult.failure msg →
      msgIncludes msg "insufficient funds" = false →
      withdrawLoop a retryCount fuel = Except.error msg := by
  induction fuel with
  | zero => intro rc k a msg h1 h2 _ _ _; omega
  | succ f ih =>
      intro rc k a msg h1 h2 hpre hk hm
      unfold withdrawLoop
      by_cases he : rc = k
      · subst he
        rw [hk]
        dsimp only
        rw [if_neg (by rw [hm]; exact Bool.false_ne_true)]
      · have h0 := hpre rc (Nat.le_refl rc) (by omega)
        cases ha : a rc with
        | success tx => rw [ha] at h0; exact absurd h0 (by simp [retriableFailure])
        | failure m0 =>
            rw [ha] at h0
            dsimp only
            rw [if_pos (show msgIncludes m0 "insufficient funds" = true from h0)]
            exact ih (rc + 1) k a msg (by omega) (by omega)
              (fun i hi1 hi2 => hpre i (by omega) hi2) hk hm

/-- C8: withdrawal retry classification.  The enhanced withdrawal consults
the attempt oracle only at retry counts below 20; when every attempt fails
with an insufficient-funds-class error it stops after those 20 attempts
with the terminal error; a failure of any other class, reached after
retriable ones, aborts immediately by propagating that very error; and on
the recognized layer-2 chain ids 10 and 8453, the safety margin subtracted
from the transfer value is gasCost * retryCount / 100 — proportional to the
retry count — while it is zero on other chains. -/
theorem withdraw_enhanced_retry_classification :
    (∀ a1 a2 : Nat → AttemptResult, (∀ i, i < 20 → a1 i = a2 i) →
      withdrawStealthPaymentEnhanced a1 = withdrawStealthPaymentEnhanced a2) ∧
    (∀ a : Nat → AttemptResult, (∀ i, i < 20 → retriableFailure (a i) = true) →
      withdrawStealthPaymentEnhanced a = Except.error exhaustedMsg) ∧
    (∀ (a : Nat → AttemptResult) (k : Nat) (msg : String), k < 20 →
      (∀ i, i < k → retriableFailure (a i) = true) →
      a k = AttemptResult.failure msg →
      msgIncludes msg "insufficient funds" = false →
      withdrawStealthPaymentEnhanced a = Except.error msg) ∧
    (∀ gasCost retryCount : Nat, retryCount ≤ 20 →
      l2Margin gasCost retryCount 10 = gasCost * retryCount / 100 ∧
      l2Margin gasCost retryCount 8453 = gasCost * retryCount / 100 ∧
      l2Margin gasCost retryCount 1 = 0 ∧
      adjustedValue 0 gasCost retryCount 10 ≤ 0) := by
  refine ⟨?_, ?_, ?_, ?_⟩
  · intro a1 a2 hag
    exact withdrawLoop_congr 20 0 a1 a2 (fun i h1 h2 => hag i (by omega))
  · intro a hall
    exact withdrawLoop_exhausts 20 0 a (fun i h1 h2 => hall i (by omega))
  · intro a k msg hk hpre ha hm
    exact withdrawLoop_aborts 20 0 k a msg (Nat.zero_le k) (by omega)
      (fun i h1 h2 => hpre i h2) ha hm
  · intro gasCost retryCount hrc
    have hmin : min retryCount 20 = retryCount := Nat.min_eq_left hrc
    refine ⟨?_, ?_, ?_, ?_⟩
    · unfold l2Margin
      rw [if_pos (Or.inl rfl), hmin]
    · unfold l2Margin
      rw [if_pos (Or.inr rfl), hmin]
    · unfold l2Margin
      rw [if_neg (by omega)]
    · unfold adjustedValue
      have : (0 : Int) - gasCost - l2Margin gasCost retryCount 10 ≤ 0 := by
        have h1 : (0 : Int) ≤ (gasCost : Int) := Int.ofNat_nonneg gasCost
        have h2 : (0 : Int) ≤ (l2Margin gasCost retryCount 10 : Int) :=
          Int.ofNat_nonneg _
        omega
      simpa using this

/-- Closed evaluation of the C8 theorem: an oracle failing once with a
nonce error aborts immediately with that error, and the margin at retry
count 3 on Optimism is 3 percent of the gas cost. -/
theorem withdraw_enhanced_retry_classification_witness :
    withdrawStealthPaymentEnhanced (fun _ => AttemptResult.failure "nonce too low")
        = Except.error "nonce too low" ∧
    l2Margin 1000 3 10 = 30 := by
  constructor
  · exact withdraw_enhanced_retry_classification.2.2.1
      (fun _ => AttemptResult.failure "nonce too low") 0 "nonce too low"
      (by omega) (fun i hi => absurd hi (by omega)) rfl (by decide)
  · exact ((withdraw_enhanced_retry_classification.2.2.2 1000 3 (by omega)).1).trans
      (by decide)

/-! ## Native-asset withdrawal ladder (src/stealthPlugin.ts) -/

/-- The fixed descending ladder of small transfer amounts (in wei) of
StealthPlugin.withdrawStealthPayment. -/
def smallAmounts : List Nat :=
  [1000000000000000, 500000000000000, 100000000000000, 50000000000000,
   10000000000000, 5000000000000, 1000000000000]

/-- Embedding of the ladder loop: amounts not strictly below the balance are
skipped; the first attempted amount whose transfer succeeds is returned. -/
def tryLadder (send : Nat → Bool) (balance : Nat) : List Nat → Option Nat
  | [] => none
  | a :: rest =>
      if a < balance then
        if send a then some a else tryLadder send balance rest
      else tryLadder send balance rest

/-- The insufficient-balance error thrown when every attempt fails. -/
def ladderFailMsg : String := "Insufficient balance in stealth address for withdrawal"

/-- Embedding of the fallback of the ladder: the computed maximum
balance minus estimated gas cost, attempted only when positive. -/
def maxAmountFallback (send : Nat → Bool) (balance baseGasFee : Nat) :
    Except String Nat :=
  if (balance : Int) - baseGasFee > 0 then
    if send (balance - baseGasFee) then Except.ok (balance - baseGasFee)
    else Except.error ladderFailMsg
  else Except.error ladderFailMsg

/-- Embedding of the ETH branch of StealthPlugin.withdrawStealthPayment
after the stealth wallet is opened: a zero balance is rejected, the ladder
is tried first, and only if every ladder amount fails is the computed
maximum attempted.  The send oracle abstracts one transfer of a given
amount. -/
def withdrawStealthPayment (send : Nat → Bool) (balance baseGasFee : Nat) :
    Except String Nat :=
  if balance = 0 then Except.error "No ETH balance in stealth address"
  else
    match tryLadder send balance smallAmounts with
    | some a => Except.ok a
    | none => maxAmountFallback send balance baseGasFee

/-- Strict descent of a list of amounts, as a computable check. -/
def strictlyDescending : List Nat → Bool
  | [] => true
  | [_] => true
  | a :: b :: t => decide (b < a) && strictlyDescending (b :: t)

/-- The ladder loop returns the first amount below the balance that the
send oracle accepts. -/
theorem tryLadder_eq_find (send : Nat → Bool) (balance : Nat) (l : List Nat) :
    tryLadder send balance l = (l.filter (fun a => a < balance)).find? send := by
  induction l with
  | nil => rfl
  | cons a rest ih =>
      unfold tryLadder
      by_cases hb : a < balance
      · rw [if_pos hb, List.filter_cons_of_pos (by simpa using hb)]
        rw [List.find?_cons]
        by_cases hs : send a
        · rw [if_pos hs]
          simp [hs]
        · rw [if_neg hs]
          simp only [Bool.not_eq_true] at hs
          simp [hs, ih]
      · rw [if_neg hb, List.filter_cons_of_neg (by simpa using hb)]
        exact ih

/-- C9: descending withdrawal ladder.  The ladder amounts are the fixed
list 0.001, 0.0005, 0.0001, 0.00005, 0.00001, 0.000005, 0.000001 ETH in
strictly descending order; for a nonzero balance the withdrawal returns the
first ladder amount strictly below the balance whose transfer succeeds, and
falls back to the computed maximum balance minus gas cost exactly when
every ladder amount fails; in the scenario of a balance of
1050000000000000 wei with every transfer succeeding, the first attempted
and returned amount is 0.001 ETH = 1000000000000000 wei. -/
theorem withdraw_ladder_descending_first_fit :
    strictlyDescending smallAmounts = true ∧
    (∀ (send : Nat → Bool) (balance baseGasFee a : Nat), balance ≠ 0 →
      (smallAmounts.filter (fun x => x < balance)).find? send = some a →
      withdrawStealthPayment send balance baseGasFee = Except.ok a) ∧
    (∀ (send : Nat → Bool) (balance baseGasFee : Nat), balance ≠ 0 →
      (smallAmounts.filter (fun x => x < balance)).find? send = none →
      withdrawStealthPayment send balance baseGasFee
        = maxAmountFallback send balance baseGasFee) ∧
    withdrawStealthPayment (fun _ => true) 1050000000000000 1000000000000
      = Except.ok 1000000000000000 := by
  refine ⟨by rfl, ?_, ?_, by rfl⟩
  · intro send balance baseGasFee a h0 hfind
    unfold withdrawStealthPayment
    rw [if_neg h0, tryLadder_eq_find, hfind]
  · intro send balance baseGasFee h0 hfind
    unfold withdrawStealthPayment
    rw [if_neg h0, tryLadder_eq_find, hfind]

/-- Closed evaluation of the C9 theorem: with a balance of 600000000000000
wei and every transfer succeeding, the first ladder amount below the
balance, 0.0005 ETH, is withdrawn. -/
theorem withdraw_ladder_descending_first_fit_witness :
    withdrawStealthPayment (fun _ => true) 600000000000000 1000000000000
      = Except.ok 500000000000000 :=
  withdraw_ladder_descending_first_fit.2.1 (fun _ => true) 600000000000000
    1000000000000 500000000000000 (by decide) (by decide)

end StealthSpec
